import Mathlib

/-!
Shallow embedding of the typed-storage core of `typed-local-storage`
(`createTypedStorage` in `src/createTypedStorage.ts`, the `StorageAdapter`
contract in `src/types.ts`, and the in-memory adapter in
`src/adapters/memoryStorage.ts`).

Modelling decisions:
* JavaScript values handled by a schema are an abstract type `V`; the external
  capabilities (the zod schema's `safeParse`, `JSON.stringify` / `JSON.parse`,
  and the `String(...)` conversion) are parameters (`Codec`, and the
  `schema : V → Option V` field), as the specification treats them as opaque
  collaborators.  `safeParse` is total (zod's non-throwing API); a throw of
  `JSON.parse` is modelled as `jsonParse = none`, matching the inner
  `try/catch` around it in the source.
* An adapter operation is a state transformer returning the next state plus a
  `JsCall` outcome: an immediate value, a synchronous throw, a fulfilled
  promise, or a rejected promise.  The source's `instanceof Promise` check is
  `JsCall.isPromise`.
* What an accessor hands back to its caller is an `AccessorResult`: an
  immediate value (`now`), a pending value that fulfills (`pending`), or a
  pending value that rejects (`pendingErr`) — the last is possible because the
  source returns the adapter's promise as-is from `set` / `remove`.
-/

/-- Outcome of one raw adapter operation, as seen at the call site in
`createTypedStorage`: an immediate value, a synchronous throw, or a promise
that later fulfills or rejects.  Errors are carried as message strings. -/
inductive JsCall (α : Type) where
  | ok : α → JsCall α
  | thrown : String → JsCall α
  | fulfilled : α → JsCall α
  | rejected : String → JsCall α
deriving DecidableEq

/-- The source's `item instanceof Promise` test. -/
def JsCall.isPromise {α : Type} : JsCall α → Bool
  | .fulfilled _ => true
  | .rejected _ => true
  | _ => false

/-- What an accessor call hands back to its caller: an immediate value, a
pending value that fulfills, or a pending value that rejects. -/
inductive AccessorResult (α : Type) where
  | now : α → AccessorResult α
  | pending : α → AccessorResult α
  | pendingErr : String → AccessorResult α
deriving DecidableEq

/-- Whether the accessor's caller received a pending value. -/
def AccessorResult.isPromise {α : Type} : AccessorResult α → Bool
  | .now _ => false
  | .pending _ => true
  | .pendingErr _ => true

/-- The `StorageAdapter` contract of `src/types.ts`, over an explicit store
state `σ`: each operation returns the next state and a `JsCall` outcome. -/
structure StorageAdapter (σ : Type) where
  getItem : String → σ → σ × JsCall (Option String)
  setItem : String → String → σ → σ × JsCall Unit
  removeItem : String → σ → σ × JsCall Unit
  clear : σ → σ × JsCall Unit

/-- The external encoding capabilities used by the core: `JSON.stringify`,
`JSON.parse` (a throw is `none`), the `String(...)` conversion, and the
embedding of a raw stored string as a value passed to the schema. -/
structure Codec (V : Type) where
  jsonStringify : V → String
  jsonParse : String → Option V
  stringOf : V → String
  valOfString : String → V

/-- One entry of the configuration object of `createTypedStorage`
(`StorageItemConfig` in the source): optional explicit storage key, the
schema's `safeParse` as a function to `Option` (success with data, or
failure), the default value, and the JSON-encoding flag. -/
structure StorageItemConfig (V : Type) where
  key : Option String := none
  schema : V → Option V
  defaultValue : V
  isJson : Bool := false

namespace TypedStorage

/-- The destructuring `const { key = storageKey, ... } = itemConfig` in
`createTypedStorage`: an absent explicit key falls back to the logical key. -/
def resolvedKey {V : Type} (storageKey : String) (cfg : StorageItemConfig V) : String :=
  cfg.key.getD storageKey

/-- The decode applied by `get` to a non-empty stored string: with `isJson`,
`JSON.parse` then `schema.safeParse`, each failure giving the effective
default; without it, `schema.safeParse` on the raw string. -/
def parseStored {V : Type} (C : Codec V) (cfg : StorageItemConfig V)
    (value : String) (finalDefaultValue : V) : V :=
  if cfg.isJson then
    match C.jsonParse value with
    | none => finalDefaultValue
    | some parsed =>
      match cfg.schema parsed with
      | some d => d
      | none => finalDefaultValue
  else
    match cfg.schema (C.valOfString value) with
    | some d => d
    | none => finalDefaultValue

/-- The body shared by `get`'s synchronous branch and its `.then`
continuation: `if (!value) return finalDefaultValue` (absent or empty string),
otherwise decode and validate. -/
def handleRaw {V : Type} (C : Codec V) (cfg : StorageItemConfig V)
    (value : Option String) (finalDefaultValue : V) : V :=
  match value with
  | none => finalDefaultValue
  | some s => if s = "" then finalDefaultValue else parseStored C cfg s finalDefaultValue

/-- The getter of `createTypedStorage`.  The per-call `options.defaultValue`
override falls back to the configured default; a promise from the adapter
yields a pending result through `.then` / `.catch` (the `.catch` resolves to
the effective default, so `get`'s promise never rejects); a synchronous throw
of the adapter is caught by the outer `try/catch` and becomes the effective
default. -/
def get {V σ : Type} (C : Codec V) (A : StorageAdapter σ) (storageKey : String)
    (cfg : StorageItemConfig V) (options : Option V) (s : σ) : σ × AccessorResult V :=
  let key := resolvedKey storageKey cfg
  let finalDefaultValue := options.getD cfg.defaultValue
  let res := A.getItem key s
  (res.1,
    match res.2 with
    | JsCall.ok item => AccessorResult.now (handleRaw C cfg item finalDefaultValue)
    | JsCall.thrown _ => AccessorResult.now finalDefaultValue
    | JsCall.fulfilled item => AccessorResult.pending (handleRaw C cfg item finalDefaultValue)
    | JsCall.rejected _ => AccessorResult.pending finalDefaultValue)

/-- The encoding applied by `set` to the schema's parsed data:
`JSON.stringify` when `isJson`, otherwise `String(...)`. -/
def encodeValue {V : Type} (C : Codec V) (cfg : StorageItemConfig V) (parsed : V) : String :=
  if cfg.isJson then C.jsonStringify parsed else C.stringOf parsed

/-- The setter of `createTypedStorage`.  A schema-rejected value is logged and
returns `undefined` immediately with no write; otherwise the encoded text is
written and the adapter's own result is returned as-is — so a synchronous
throw is caught by the `try/catch` (returning `undefined`), while a rejected
promise is handed to the caller unchanged. -/
def set {V σ : Type} (C : Codec V) (A : StorageAdapter σ) (storageKey : String)
    (cfg : StorageItemConfig V) (value : V) (s : σ) : σ × AccessorResult Unit :=
  let key := resolvedKey storageKey cfg
  match cfg.schema value with
  | none => (s, AccessorResult.now ())
  | some parsed =>
    let stringValue := encodeValue C cfg parsed
    let res := A.setItem key stringValue s
    (res.1,
      match res.2 with
      | JsCall.ok _ => AccessorResult.now ()
      | JsCall.thrown _ => AccessorResult.now ()
      | JsCall.fulfilled _ => AccessorResult.pending ()
      | JsCall.rejected e => AccessorResult.pendingErr e)

/-- The remover of `createTypedStorage`: the adapter's `removeItem` result,
returned as-is, with a synchronous throw caught by the `try/catch`. -/
def remove {V σ : Type} (A : StorageAdapter σ) (storageKey : String)
    (cfg : StorageItemConfig V) (s : σ) : σ × AccessorResult Unit :=
  let key := resolvedKey storageKey cfg
  let res := A.removeItem key s
  (res.1,
    match res.2 with
    | JsCall.ok _ => AccessorResult.now ()
    | JsCall.thrown _ => AccessorResult.now ()
    | JsCall.fulfilled _ => AccessorResult.pending ()
    | JsCall.rejected e => AccessorResult.pendingErr e)

end TypedStorage

/-- The accessor triple produced for one logical key. -/
structure AccessorTriple (V σ : Type) where
  get : Option V → σ → σ × AccessorResult V
  set : V → σ → σ × AccessorResult Unit
  remove : σ → σ × AccessorResult Unit

/-- The factory `createTypedStorage`: for each configuration entry, an
accessor triple closed over the entry's resolved key, schema, default value
and JSON flag.  It performs no adapter call itself. -/
def createTypedStorage {V σ : Type} (C : Codec V) (A : StorageAdapter σ)
    (config : List (String × StorageItemConfig V)) : List (String × AccessorTriple V σ) :=
  config.map fun entry =>
    (entry.1,
      { get := fun options s => TypedStorage.get C A entry.1 entry.2 options s
        set := fun value s => TypedStorage.set C A entry.1 entry.2 value s
        remove := fun s => TypedStorage.remove A entry.1 entry.2 s })

/-- Store state of the map-backed adapters: the raw string held per key. -/
def Store : Type := String → Option String

/-- The empty store. -/
def Store.empty : Store := fun _ => none

/-- `MemoryStorageAdapter` of `src/adapters/memoryStorage.ts`: a synchronous
map-backed adapter (`this.storage.get(key) ?? null`, etc.). -/
def MemoryStorageAdapter : StorageAdapter Store where
  getItem := fun key s => (s, JsCall.ok (s key))
  setItem := fun key value s => ((fun k => if k = key then some value else s k), JsCall.ok ())
  removeItem := fun key s => ((fun k => if k = key then none else s k), JsCall.ok ())
  clear := fun _ => (Store.empty, JsCall.ok ())

/-- The repository's `CustomAsyncStorageAdapter` (test suite): the same
map-backed behaviour, but every operation returns a promise. -/
def CustomAsyncStorageAdapter : StorageAdapter Store where
  getItem := fun key s => (s, JsCall.fulfilled (s key))
  setItem := fun key value s => ((fun k => if k = key then some value else s k), JsCall.fulfilled ())
  removeItem := fun key s => ((fun k => if k = key then none else s k), JsCall.fulfilled ())
  clear := fun _ => (Store.empty, JsCall.fulfilled ())

/-- The repository's `faultyAdapter` (test suite): every operation is an
async function that throws, i.e. returns a rejected promise. -/
def faultyAdapter : StorageAdapter Store where
  getItem := fun _ s => (s, JsCall.rejected "Simulated error in getItem")
  setItem := fun _ _ s => (s, JsCall.rejected "Simulated error in setItem")
  removeItem := fun _ s => (s, JsCall.rejected "Simulated error in removeItem")
  clear := fun s => (s, JsCall.rejected "Simulated error in clear")

/-- A synchronous adapter whose write operations throw, for the sync half of
the adapter-failure behaviour. -/
def throwingAdapter : StorageAdapter Store where
  getItem := fun _ s => (s, JsCall.thrown "getItem failed")
  setItem := fun _ _ s => (s, JsCall.thrown "setItem failed")
  removeItem := fun _ s => (s, JsCall.thrown "removeItem failed")
  clear := fun s => (s, JsCall.thrown "clear failed")

/-- A concrete fragment of JavaScript values (strings and integers), used to
instantiate the abstract value type on concrete inputs. -/
inductive JsVal where
  | vstr : String → JsVal
  | vnum : Int → JsVal
deriving DecidableEq

/-- JavaScript's `String(...)` on this fragment. -/
def JsVal.toText : JsVal → String
  | .vstr s => s
  | .vnum n => toString n

/-- `JSON.stringify` on this fragment (strings assumed free of characters
needing escapes). -/
def jsStringify : JsVal → String
  | .vstr s => "\"" ++ s ++ "\""
  | .vnum n => toString n

/-- Decimal digit reading used by `jsParse`. -/
def natOfChars : List Char → Option Nat
  | [] => none
  | cs =>
    cs.foldl
      (fun acc c =>
        match acc with
        | none => none
        | some n => if c.isDigit then some (n * 10 + (c.toNat - 48)) else none)
      (some 0)

/-- Integer literal reading used by `jsParse`. -/
def intOfChars : List Char → Option Int
  | '-' :: cs => (natOfChars cs).map fun n => -(n : Int)
  | cs => (natOfChars cs).map fun n => (n : Int)

/-- `JSON.parse` on this fragment: a double-quoted text is a string, an
integer literal is a number, anything else throws (`none`). -/
def jsParse (s : String) : Option JsVal :=
  match s.data with
  | [] => none
  | c :: cs =>
    if c = '\"' ∧ cs.getLast? = some '\"' ∧ cs ≠ [] then
      some (JsVal.vstr (String.mk cs.dropLast))
    else
      (intOfChars (c :: cs)).map JsVal.vnum

/-- The concrete codec over `JsVal`. -/
def JsCodec : Codec JsVal where
  jsonStringify := jsStringify
  jsonParse := jsParse
  stringOf := JsVal.toText
  valOfString := JsVal.vstr

/-- Claim C9: for every configured key and every store state, `remove()`
followed by `get()` with no options returns the configured default value
(over the repository's map-backed memory adapter). -/
theorem claim_C9_remove_then_get {V : Type} (C : Codec V) (storageKey : String)
    (cfg : StorageItemConfig V) (s : Store) :
    (TypedStorage.get C MemoryStorageAdapter storageKey cfg none
        ((TypedStorage.remove MemoryStorageAdapter storageKey cfg s).1)).2
      = AccessorResult.now cfg.defaultValue := by
  simp [TypedStorage.get, TypedStorage.remove, TypedStorage.handleRaw, MemoryStorageAdapter]

/-- Claim C10: `get` never mutates the backing store — whenever the adapter's
`getItem` is read-only on the state, the state after `get` is the state
before — and `get` depends only on the adapter's `getItem`, never on
`setItem`, `removeItem` or `clear`. -/
theorem claim_C10_get_is_readonly {V σ : Type} (C : Codec V) (A B : StorageAdapter σ)
    (storageKey : String) (cfg : StorageItemConfig V) (options : Option V) (s : σ) :
    ((∀ k st, (A.getItem k st).1 = st) →
        (TypedStorage.get C A storageKey cfg options s).1 = s) ∧
    (A.getItem = B.getItem →
        TypedStorage.get C A storageKey cfg options s
          = TypedStorage.get C B storageKey cfg options s) := by
  constructor
  · intro h
    simpa [TypedStorage.get] using h (TypedStorage.resolvedKey storageKey cfg) s
  · intro h
    simp [TypedStorage.get, h]

/-- Witness for claim C10 at the memory adapter on the empty store. -/
theorem claim_C10_get_is_readonly_witness :
    (TypedStorage.get JsCodec MemoryStorageAdapter "user"
        (StorageItemConfig.mk none some (JsVal.vstr "") false) none Store.empty).1
      = Store.empty :=
  (claim_C10_get_is_readonly JsCodec MemoryStorageAdapter MemoryStorageAdapter "user"
      (StorageItemConfig.mk none some (JsVal.vstr "") false) none Store.empty).1
    (fun _ _ => rfl)

/-- Claim C3: `set` of a schema-rejected value performs no write and raises
nothing: the state is unchanged, the caller receives an immediate
`undefined`, and any subsequent `get` behaves exactly as before the call. -/
theorem claim_C3_invalid_set_is_noop {V σ : Type} (C : Codec V) (A : StorageAdapter σ)
    (storageKey : String) (cfg : StorageItemConfig V) (value : V) (s : σ)
    (h : cfg.schema value = none) :
    TypedStorage.set C A storageKey cfg value s = (s, AccessorResult.now ()) ∧
    ∀ options, TypedStorage.get C A storageKey cfg options
        ((TypedStorage.set C A storageKey cfg value s).1)
      = TypedStorage.get C A storageKey cfg options s := by
  have hs : TypedStorage.set C A storageKey cfg value s = (s, AccessorResult.now ()) := by
    simp [TypedStorage.set, h]
  exact ⟨hs, fun options => by rw [hs]⟩

/-- Witness for claim C3: a schema rejecting everything, on the empty store. -/
theorem claim_C3_invalid_set_is_noop_witness :
    TypedStorage.set JsCodec MemoryStorageAdapter "user"
        (StorageItemConfig.mk none (fun _ => none) (JsVal.vstr "") false)
        (JsVal.vnum 1) Store.empty
      = (Store.empty, AccessorResult.now ()) :=
  (claim_C3_invalid_set_is_noop JsCodec MemoryStorageAdapter "user"
      (StorageItemConfig.mk none (fun _ => none) (JsVal.vstr "") false)
      (JsVal.vnum 1) Store.empty rfl).1

/-- Claim C5: when the adapter's raw-get returns absent, `get()` with no
options returns the configured default, and `get` with a per-call
`defaultValue` override returns the override regardless of the configured
default. -/
theorem claim_C5_default_fallback {V σ : Type} (C : Codec V) (A : StorageAdapter σ)
    (storageKey : String) (cfg : StorageItemConfig V) (d : V) (s : σ)
    (h : (A.getItem (TypedStorage.resolvedKey storageKey cfg) s).2 = JsCall.ok none) :
    (TypedStorage.get C A storageKey cfg none s).2 = AccessorResult.now cfg.defaultValue ∧
    (TypedStorage.get C A storageKey cfg (some d) s).2 = AccessorResult.now d := by
  constructor <;> simp [TypedStorage.get, h, TypedStorage.handleRaw]

/-- Witness for claim C5 at the memory adapter on the empty store. -/
theorem claim_C5_default_fallback_witness :
    (TypedStorage.get JsCodec MemoryStorageAdapter "token"
        (StorageItemConfig.mk none some (JsVal.vstr "dflt") false) none Store.empty).2
      = AccessorResult.now (JsVal.vstr "dflt") ∧
    (TypedStorage.get JsCodec MemoryStorageAdapter "token"
        (StorageItemConfig.mk none some (JsVal.vstr "dflt") false)
        (some (JsVal.vstr "override")) Store.empty).2
      = AccessorResult.now (JsVal.vstr "override") :=
  claim_C5_default_fallback JsCodec MemoryStorageAdapter "token"
    (StorageItemConfig.mk none some (JsVal.vstr "dflt") false)
    (JsVal.vstr "override") Store.empty rfl

/-- Claim C6: when the stored raw text fails JSON parsing (with `isJson`) or
fails schema validation, `get` returns the effective default value, and its
result is never a rejecting pending value. -/
theorem claim_C6_decode_failure_defaults {V σ : Type} (C : Codec V) (A : StorageAdapter σ)
    (storageKey : String) (cfg : StorageItemConfig V) (options : Option V)
    (raw : String) (s : σ)
    (hget : (A.getItem (TypedStorage.resolvedKey storageKey cfg) s).2 = JsCall.ok (some raw))
    (hfail : (cfg.isJson = true ∧ C.jsonParse raw = none) ∨
        (∃ j, cfg.isJson = true ∧ C.jsonParse raw = some j ∧ cfg.schema j = none) ∨
        (cfg.isJson = false ∧ cfg.schema (C.valOfString raw) = none)) :
    (TypedStorage.get C A storageKey cfg options s).2
        = AccessorResult.now (options.getD cfg.defaultValue) ∧
    ∀ e, (TypedStorage.get C A storageKey cfg options s).2 ≠ AccessorResult.pendingErr e := by
  have h1 : TypedStorage.handleRaw C cfg (some raw) (options.getD cfg.defaultValue)
      = options.getD cfg.defaultValue := by
    by_cases hr : raw = ""
    · simp [TypedStorage.handleRaw, hr]
    · rcases hfail with ⟨hj, hp⟩ | ⟨j, hj, hp, hs⟩ | ⟨hj, hs⟩
      · simp [TypedStorage.handleRaw, hr, TypedStorage.parseStored, hj, hp]
      · simp [TypedStorage.handleRaw, hr, TypedStorage.parseStored, hj, hp, hs]
      · simp [TypedStorage.handleRaw, hr, TypedStorage.parseStored, hj, hs]
  constructor
  · simp [TypedStorage.get, hget, h1]
  · intro e
    simp [TypedStorage.get, hget, h1]

/-- Witness for claim C6: JSON mode over stored text that is not JSON. -/
theorem claim_C6_decode_failure_defaults_witness :
    (TypedStorage.get JsCodec MemoryStorageAdapter "user"
        (StorageItemConfig.mk none some (JsVal.vstr "fallback") true) none
        (fun k => if k = "user" then some "notjson" else none)).2
      = AccessorResult.now (JsVal.vstr "fallback") :=
  (claim_C6_decode_failure_defaults JsCodec MemoryStorageAdapter "user"
      (StorageItemConfig.mk none some (JsVal.vstr "fallback") true) none "notjson"
      (fun k => if k = "user" then some "notjson" else none)
      (by decide) (Or.inl (by decide))).1

/-- Claim C7: when the adapter's raw value for `get` is absent or the empty
string, `get` returns the effective default (the per-call override if given,
otherwise the configured default), for an arbitrary schema — the schema is
never consulted, as the conclusion holds for every `cfg.schema`. -/
theorem claim_C7_absent_or_empty {V σ : Type} (C : Codec V) (A : StorageAdapter σ)
    (storageKey : String) (cfg : StorageItemConfig V) (options : Option V) (s : σ) :
    ((A.getItem (TypedStorage.resolvedKey storageKey cfg) s).2 = JsCall.ok none ∨
        (A.getItem (TypedStorage.resolvedKey storageKey cfg) s).2 = JsCall.ok (some "") →
      (TypedStorage.get C A storageKey cfg options s).2
        = AccessorResult.now (options.getD cfg.defaultValue)) ∧
    ((A.getItem (TypedStorage.resolvedKey storageKey cfg) s).2 = JsCall.fulfilled none ∨
        (A.getItem (TypedStorage.resolvedKey storageKey cfg) s).2 = JsCall.fulfilled (some "") →
      (TypedStorage.get C A storageKey cfg options s).2
        = AccessorResult.pending (options.getD cfg.defaultValue)) := by
  constructor
  · rintro (h | h) <;> simp [TypedStorage.get, h, TypedStorage.handleRaw]
  · rintro (h | h) <;> simp [TypedStorage.get, h, TypedStorage.handleRaw]

/-- Witness for claim C7: an empty-string entry under a per-call override. -/
theorem claim_C7_absent_or_empty_witness :
    (TypedStorage.get JsCodec MemoryStorageAdapter "flag"
        (StorageItemConfig.mk none some (JsVal.vstr "off") false)
        (some (JsVal.vstr "on"))
        (fun k => if k = "flag" then some "" else none)).2
      = AccessorResult.now (JsVal.vstr "on") :=
  (claim_C7_absent_or_empty JsCodec MemoryStorageAdapter "flag"
      (StorageItemConfig.mk none some (JsVal.vstr "off") false)
      (some (JsVal.vstr "on"))
      (fun k => if k = "flag" then some "" else none)).1 (Or.inr (by decide))

/-- Claim C8: an entry with no explicit storage key persists under its logical
key name; an entry with an explicit storage key persists under that key and
leaves the logical key name's slot untouched (over the memory adapter). -/
theorem claim_C8_key_resolution {V : Type} (C : Codec V) (logicalKey explicitKey : String)
    (f : V → Option V) (dflt : V) (isJ : Bool) (value d : V) (s : Store) :
    (f value = some d →
      (TypedStorage.set C MemoryStorageAdapter logicalKey
          (StorageItemConfig.mk none f dflt isJ) value s).1 logicalKey
        = some (TypedStorage.encodeValue C (StorageItemConfig.mk none f dflt isJ) d)) ∧
    (f value = some d → explicitKey ≠ logicalKey →
      (TypedStorage.set C MemoryStorageAdapter logicalKey
          (StorageItemConfig.mk (some explicitKey) f dflt isJ) value s).1 explicitKey
        = some (TypedStorage.encodeValue C (StorageItemConfig.mk (some explicitKey) f dflt isJ) d) ∧
      (TypedStorage.set C MemoryStorageAdapter logicalKey
          (StorageItemConfig.mk (some explicitKey) f dflt isJ) value s).1 logicalKey
        = s logicalKey) := by
  refine ⟨fun h => ?_, fun h hne => ⟨?_, ?_⟩⟩
  · simp [TypedStorage.set, h, TypedStorage.resolvedKey, MemoryStorageAdapter]
  · simp [TypedStorage.set, h, TypedStorage.resolvedKey, MemoryStorageAdapter]
  · simp [TypedStorage.set, h, TypedStorage.resolvedKey, MemoryStorageAdapter, Ne.symm hne]

/-- Witness for claim C8: an explicit storage key distinct from the logical
key, on the empty store. -/
theorem claim_C8_key_resolution_witness :
    (TypedStorage.set JsCodec MemoryStorageAdapter "user"
        (StorageItemConfig.mk (some "stored-user") some (JsVal.vstr "") false)
        (JsVal.vstr "john") Store.empty).1 "stored-user"
      = some (TypedStorage.encodeValue JsCodec
          (StorageItemConfig.mk (some "stored-user") some (JsVal.vstr "") false)
          (JsVal.vstr "john")) ∧
    (TypedStorage.set JsCodec MemoryStorageAdapter "user"
        (StorageItemConfig.mk (some "stored-user") some (JsVal.vstr "") false)
        (JsVal.vstr "john") Store.empty).1 "user"
      = Store.empty "user" :=
  (claim_C8_key_resolution JsCodec "user" "stored-user" some (JsVal.vstr "") false
      (JsVal.vstr "john") (JsVal.vstr "john") Store.empty).2 rfl (by decide)

/-- Claim C1 counterexample: in plain-text mode, with a schema that accepts
every value unchanged (as `z.any()` does), `set` of the number `42` stores
the text `42`, and `get` re-validates the raw stored text, returning the
string `"42"` — which is not deep-equal to the number `42` the schema had
accepted.  So the round-trip fails as universally stated. -/
theorem claim_C1_counterexample :
    (StorageItemConfig.mk none some (JsVal.vstr "") false : StorageItemConfig JsVal).schema
        (JsVal.vnum 42) = some (JsVal.vnum 42) ∧
    (TypedStorage.get JsCodec MemoryStorageAdapter "count"
        (StorageItemConfig.mk none some (JsVal.vstr "") false) none
        ((TypedStorage.set JsCodec MemoryStorageAdapter "count"
            (StorageItemConfig.mk none some (JsVal.vstr "") false)
            (JsVal.vnum 42) Store.empty).1)).2
      = AccessorResult.now (JsVal.vstr "42") ∧
    AccessorResult.now (JsVal.vstr "42") ≠ AccessorResult.now (JsVal.vnum 42) := by decide

/-- Claim C1 (amended): `set(v)` followed by `get()` returns `v` for every
value the schema validates to itself, provided the stored encoded text is
non-empty (a stored empty string is treated as absent by `get`'s falsy
check, so e.g. `set("")` under a string schema comes back as the default)
and the decoding of the stored text re-validates to `v`: in JSON mode,
whenever `JSON.parse` inverts `JSON.stringify` on `v`; in plain-text mode,
whenever the schema validates the stored textual form `String(v)` back to
`v` (as string schemas do on non-empty strings). -/
theorem claim_C1_set_get_roundtrip {V : Type} (C : Codec V) (storageKey : String)
    (cfg : StorageItemConfig V) (value : V) (s : Store)
    (hacc : cfg.schema value = some value)
    (hjson : cfg.isJson = true →
        C.jsonStringify value ≠ "" ∧ C.jsonParse (C.jsonStringify value) = some value)
    (hplain : cfg.isJson = false →
        C.stringOf value ≠ "" ∧ cfg.schema (C.valOfString (C.stringOf value)) = some value) :
    (TypedStorage.get C MemoryStorageAdapter storageKey cfg none
        ((TypedStorage.set C MemoryStorageAdapter storageKey cfg value s).1)).2
      = AccessorResult.now value := by
  cases hj : cfg.isJson
  · obtain ⟨h1, h2⟩ := hplain hj
    simp [TypedStorage.set, TypedStorage.get, hacc, TypedStorage.encodeValue, hj,
      MemoryStorageAdapter, TypedStorage.handleRaw, TypedStorage.parseStored, h1, h2]
  · obtain ⟨h1, h2⟩ := hjson hj
    simp [TypedStorage.set, TypedStorage.get, hacc, TypedStorage.encodeValue, hj,
      MemoryStorageAdapter, TypedStorage.handleRaw, TypedStorage.parseStored, h1, h2]

/-- Witness for the amended claim C1: JSON mode, round-tripping the number 7. -/
theorem claim_C1_set_get_roundtrip_witness :
    (TypedStorage.get JsCodec MemoryStorageAdapter "user"
        (StorageItemConfig.mk none some (JsVal.vstr "") true) none
        ((TypedStorage.set JsCodec MemoryStorageAdapter "user"
            (StorageItemConfig.mk none some (JsVal.vstr "") true)
            (JsVal.vnum 7) Store.empty).1)).2
      = AccessorResult.now (JsVal.vnum 7) :=
  claim_C1_set_get_roundtrip JsCodec "user"
    (StorageItemConfig.mk none some (JsVal.vstr "") true)
    (JsVal.vnum 7) Store.empty (by decide) (fun _ => by decide) (by decide)

/-- Claim C2 counterexample: over an adapter whose operations all return
pending values, `set` of a schema-rejected value returns an immediate
`undefined`, not a pending value — the validation-failure path of `set` does
not match the adapter's asynchronous mode. -/
theorem claim_C2_counterexample :
    (CustomAsyncStorageAdapter.getItem "user" Store.empty).2.isPromise = true ∧
    (TypedStorage.set JsCodec CustomAsyncStorageAdapter "user"
        (StorageItemConfig.mk none (fun _ => none) (JsVal.vstr "") false)
        (JsVal.vnum 1) Store.empty).2.isPromise = false := by decide

/-- Claim C2 (amended): a pending raw-get makes `get` pending, a pending
raw-set makes `set` of a schema-accepted value pending, and a pending
raw-remove makes `remove` pending; immediate raw operations make each of
these immediate.  The exception is `set` of a schema-rejected value, which
returns an immediate `undefined` regardless of the adapter's mode. -/
theorem claim_C2_adapter_mode {V σ : Type} (C : Codec V) (A : StorageAdapter σ)
    (storageKey : String) (cfg : StorageItemConfig V) (value : V)
    (options : Option V) (s : σ) :
    (((A.getItem (TypedStorage.resolvedKey storageKey cfg) s).2.isPromise = true →
        (TypedStorage.get C A storageKey cfg options s).2.isPromise = true) ∧
      (∀ d, cfg.schema value = some d →
        (A.setItem (TypedStorage.resolvedKey storageKey cfg)
            (TypedStorage.encodeValue C cfg d) s).2.isPromise = true →
        (TypedStorage.set C A storageKey cfg value s).2.isPromise = true) ∧
      (cfg.schema value = none →
        (TypedStorage.set C A storageKey cfg value s).2 = AccessorResult.now ()) ∧
      ((A.removeItem (TypedStorage.resolvedKey storageKey cfg) s).2.isPromise = true →
        (TypedStorage.remove A storageKey cfg s).2.isPromise = true)) ∧
    (((A.getItem (TypedStorage.resolvedKey storageKey cfg) s).2.isPromise = false →
        (TypedStorage.get C A storageKey cfg options s).2.isPromise = false) ∧
      (∀ d, cfg.schema value = some d →
        (A.setItem (TypedStorage.resolvedKey storageKey cfg)
            (TypedStorage.encodeValue C cfg d) s).2.isPromise = false →
        (TypedStorage.set C A storageKey cfg value s).2.isPromise = false) ∧
      ((A.removeItem (TypedStorage.resolvedKey storageKey cfg) s).2.isPromise = false →
        (TypedStorage.remove A storageKey cfg s).2.isPromise = false)) := by
  refine ⟨⟨?_, fun d hd hp => ?_, fun hd => ?_, ?_⟩, ?_, fun d hd hp => ?_, ?_⟩
  · intro hp
    revert hp
    cases h : (A.getItem (TypedStorage.resolvedKey storageKey cfg) s).2 <;>
      simp [TypedStorage.get, h, JsCall.isPromise, AccessorResult.isPromise]
  · revert hp
    cases h : (A.setItem (TypedStorage.resolvedKey storageKey cfg)
        (TypedStorage.encodeValue C cfg d) s).2 <;>
      simp [TypedStorage.set, hd, h, JsCall.isPromise, AccessorResult.isPromise]
  · simp [TypedStorage.set, hd]
  · intro hp
    revert hp
    cases h : (A.removeItem (TypedStorage.resolvedKey storageKey cfg) s).2 <;>
      simp [TypedStorage.remove, h, JsCall.isPromise, AccessorResult.isPromise]
  · intro hp
    revert hp
    cases h : (A.getItem (TypedStorage.resolvedKey storageKey cfg) s).2 <;>
      simp [TypedStorage.get, h, JsCall.isPromise, AccessorResult.isPromise]
  · revert hp
    cases h : (A.setItem (TypedStorage.resolvedKey storageKey cfg)
        (TypedStorage.encodeValue C cfg d) s).2 <;>
      simp [TypedStorage.set, hd, h, JsCall.isPromise, AccessorResult.isPromise]
  · intro hp
    revert hp
    cases h : (A.removeItem (TypedStorage.resolvedKey storageKey cfg) s).2 <;>
      simp [TypedStorage.remove, h, JsCall.isPromise, AccessorResult.isPromise]

/-- Witness for the amended claim C2: `get` over the asynchronous map-backed
adapter is pending, and `remove` over the synchronous memory adapter is
immediate. -/
theorem claim_C2_adapter_mode_witness :
    (TypedStorage.get JsCodec CustomAsyncStorageAdapter "user"
        (StorageItemConfig.mk none some (JsVal.vstr "") false) none Store.empty).2.isPromise
      = true ∧
    (TypedStorage.remove MemoryStorageAdapter "user"
        (StorageItemConfig.mk none some (JsVal.vstr "") false)
        Store.empty).2.isPromise
      = false :=
  ⟨(claim_C2_adapter_mode JsCodec CustomAsyncStorageAdapter "user"
        (StorageItemConfig.mk none some (JsVal.vstr "") false)
        (JsVal.vnum 0) none Store.empty).1.1 (by decide),
   (claim_C2_adapter_mode JsCodec MemoryStorageAdapter "user"
        (StorageItemConfig.mk none some (JsVal.vstr "") false)
        (JsVal.vnum 0) none Store.empty).2.2.2 (by decide)⟩

/-- Claim C4 counterexample: over the test suite's faulty asynchronous
adapter (every operation returns a rejected promise), `set` of a valid value
and `remove` both hand the rejected pending value to the caller unchanged —
the rejection is not absorbed. -/
theorem claim_C4_counterexample :
    (TypedStorage.set JsCodec faultyAdapter "user"
        (StorageItemConfig.mk none some (JsVal.vstr "") false)
        (JsVal.vnum 1) Store.empty).2
      = AccessorResult.pendingErr "Simulated error in setItem" ∧
    (TypedStorage.remove faultyAdapter "user"
        (StorageItemConfig.mk none some (JsVal.vstr "") false) Store.empty).2
      = AccessorResult.pendingErr "Simulated error in removeItem" := by decide

/-- Claim C4 (amended): a synchronous throw raised by the adapter during
raw-set or raw-remove is caught and logged, and the caller receives an
immediate `undefined`; but when an asynchronous adapter's raw-set or
raw-remove returns a rejecting pending value, that rejection is returned to
the caller as-is. -/
theorem claim_C4_write_failures {V σ : Type} (C : Codec V) (A : StorageAdapter σ)
    (storageKey : String) (cfg : StorageItemConfig V) (value : V) (s : σ) :
    (∀ d e s', cfg.schema value = some d →
        A.setItem (TypedStorage.resolvedKey storageKey cfg)
            (TypedStorage.encodeValue C cfg d) s = (s', JsCall.thrown e) →
        TypedStorage.set C A storageKey cfg value s = (s', AccessorResult.now ())) ∧
    (∀ d e s', cfg.schema value = some d →
        A.setItem (TypedStorage.resolvedKey storageKey cfg)
            (TypedStorage.encodeValue C cfg d) s = (s', JsCall.rejected e) →
        TypedStorage.set C A storageKey cfg value s = (s', AccessorResult.pendingErr e)) ∧
    (∀ e s', A.removeItem (TypedStorage.resolvedKey storageKey cfg) s = (s', JsCall.thrown e) →
        TypedStorage.remove A storageKey cfg s = (s', AccessorResult.now ())) ∧
    (∀ e s', A.removeItem (TypedStorage.resolvedKey storageKey cfg) s = (s', JsCall.rejected e) →
        TypedStorage.remove A storageKey cfg s = (s', AccessorResult.pendingErr e)) := by
  refine ⟨fun d e s' hd h => ?_, fun d e s' hd h => ?_,
    fun e s' h => ?_, fun e s' h => ?_⟩
  · simp [TypedStorage.set, hd, h]
  · simp [TypedStorage.set, hd, h]
  · simp [TypedStorage.remove, h]
  · simp [TypedStorage.remove, h]

/-- Witness for the amended claim C4: a synchronously throwing adapter, whose
`set` failure is absorbed into an immediate `undefined`. -/
theorem claim_C4_write_failures_witness :
    TypedStorage.set JsCodec throwingAdapter "user"
        (StorageItemConfig.mk none some (JsVal.vstr "") false)
        (JsVal.vnum 1) Store.empty
      = (Store.empty, AccessorResult.now ()) :=
  (claim_C4_write_failures JsCodec throwingAdapter "user"
      (StorageItemConfig.mk none some (JsVal.vstr "") false)
      (JsVal.vnum 1) Store.empty).1 (JsVal.vnum 1) "setItem failed" Store.empty rfl rfl
